import Mathlib

/-!
Verification of the genkouyoushi grid-layout engine.

The JavaScript sources (src/geometry.js and src/svg.js) are shallowly
embedded here: JS numbers become exact rationals, Math.floor becomes
Int.floor on ℚ, the JS remainder operator becomes Int.tmod (which, like
JS %, truncates toward zero), and Math.floor of an integer half becomes
Int.fdiv.  Object identity (needed only for the deep-clone claim) is made
explicit through a small heap of SpacingRectangle cells.
-/

namespace Genkouyoushi

/-- SpacingRectangle from src/geometry.js: four independent distances. -/
structure SpacingRectangle where
  top : ℚ
  right : ℚ
  bottom : ℚ
  left : ℚ
deriving DecidableEq, Repr

/-- The SpacingRectangle constructor (src/geometry.js).  The optional JS
arguments second/third/fourth become Option values; the if-chain on
undefined is translated branch for branch. -/
def mkSpacingRectangle (first : ℚ) (second third fourth : Option ℚ) :
    SpacingRectangle :=
  match second with
  | Option.none => { top := first, bottom := first, left := first, right := first }
  | Option.some s =>
    match third with
    | Option.none => { top := first, bottom := first, left := s, right := s }
    | Option.some t =>
      match fourth with
      | Option.none => { top := first, left := s, right := s, bottom := t }
      | Option.some f => { top := first, right := s, bottom := t, left := f }

/-- Getter totalHorizontal = left + right. -/
def SpacingRectangle.totalHorizontal (sr : SpacingRectangle) : ℚ :=
  sr.left + sr.right

/-- Getter mergedHorizontal = max(left, right). -/
def SpacingRectangle.mergedHorizontal (sr : SpacingRectangle) : ℚ :=
  max sr.left sr.right

/-- Getter totalVertical = top + bottom. -/
def SpacingRectangle.totalVertical (sr : SpacingRectangle) : ℚ :=
  sr.top + sr.bottom

/-- Getter mergedVertical = max(top, bottom). -/
def SpacingRectangle.mergedVertical (sr : SpacingRectangle) : ℚ :=
  max sr.top sr.bottom

/-- SpacingRectangle.clone: new SpacingRectangle(top, right, bottom, left). -/
def SpacingRectangle.clone (sr : SpacingRectangle) : SpacingRectangle :=
  mkSpacingRectangle sr.top (some sr.right) (some sr.bottom) (some sr.left)

/-- Box from src/geometry.js: inner content size, margin, padding, stroke. -/
structure Box where
  innerWidth : ℚ
  innerHeight : ℚ
  margin : SpacingRectangle
  padding : SpacingRectangle
  strokeWidth : ℚ
deriving DecidableEq, Repr

/-- Getter outerWidth = innerWidth + padding.totalHorizontal + 2*strokeWidth. -/
def Box.outerWidth (b : Box) : ℚ :=
  b.innerWidth + b.padding.totalHorizontal + 2 * b.strokeWidth

/-- Setter outerWidth: recomputes innerWidth, holding padding and stroke. -/
def Box.setOuterWidth (b : Box) (width : ℚ) : Box :=
  { b with innerWidth := width - b.padding.totalHorizontal - 2 * b.strokeWidth }

/-- Getter outerHeight = innerHeight + padding.totalVertical + 2*strokeWidth. -/
def Box.outerHeight (b : Box) : ℚ :=
  b.innerHeight + b.padding.totalVertical + 2 * b.strokeWidth

/-- Setter outerHeight: recomputes innerHeight, holding padding and stroke. -/
def Box.setOuterHeight (b : Box) (height : ℚ) : Box :=
  { b with innerHeight := height - b.padding.totalVertical - 2 * b.strokeWidth }

/-- Getter innerOrigin = (strokeWidth + padding.left, strokeWidth + padding.top). -/
def Box.innerOrigin (b : Box) : ℚ × ℚ :=
  (b.strokeWidth + b.padding.left, b.strokeWidth + b.padding.top)

/-- Getter innerEnd = innerOrigin + (innerWidth, innerHeight). -/
def Box.innerEnd (b : Box) : ℚ × ℚ :=
  ((b.innerOrigin).1 + b.innerWidth, (b.innerOrigin).2 + b.innerHeight)

/-- Getter svgWidth = innerWidth + padding.totalHorizontal + strokeWidth. -/
def Box.svgWidth (b : Box) : ℚ :=
  b.innerWidth + b.padding.totalHorizontal + b.strokeWidth

/-- Getter svgHeight = innerHeight + padding.totalVertical + strokeWidth. -/
def Box.svgHeight (b : Box) : ℚ :=
  b.innerHeight + b.padding.totalVertical + b.strokeWidth

/-- Box.clone: new Box(innerWidth, innerHeight, margin.clone(),
padding.clone(), strokeWidth). -/
def Box.clone (b : Box) : Box :=
  { innerWidth := b.innerWidth
    innerHeight := b.innerHeight
    margin := b.margin.clone
    padding := b.padding.clone
    strokeWidth := b.strokeWidth }

/-! ### Heap model for object identity

JS objects are references into a heap.  The deep-copy behaviour of
Box.clone is only observable through identity, so we model a heap of
SpacingRectangle cells (indices are references) and restate Box with
references in place of inline margin/padding values. -/

/-- A heap of SpacingRectangle objects; a reference is an index. -/
structure SRHeap where
  cells : List SpacingRectangle
deriving DecidableEq, Repr

/-- Dereference: read the SpacingRectangle at index i. -/
def SRHeap.get (h : SRHeap) (i : Nat) : SpacingRectangle :=
  h.cells.getD i { top := 0, right := 0, bottom := 0, left := 0 }

/-- In-place mutation of the object at index i. -/
def SRHeap.set (h : SRHeap) (i : Nat) (sr : SpacingRectangle) : SRHeap :=
  { cells := h.cells.set i sr }

/-- Allocate a fresh SpacingRectangle object, returning the new heap and
the fresh reference. -/
def SRHeap.alloc (h : SRHeap) (sr : SpacingRectangle) : SRHeap × Nat :=
  ({ cells := h.cells ++ [sr] }, h.cells.length)

/-- A Box whose margin and padding are references into an SRHeap. -/
structure BoxRef where
  innerWidth : ℚ
  innerHeight : ℚ
  strokeWidth : ℚ
  marginRef : Nat
  paddingRef : Nat
deriving DecidableEq, Repr

/-- Box.clone over the heap model: allocates clones of margin and padding
(new SpacingRectangle instances) and copies the scalar fields. -/
def BoxRef.clone (h : SRHeap) (b : BoxRef) : SRHeap × BoxRef :=
  let am := SRHeap.alloc h (SpacingRectangle.clone (SRHeap.get h b.marginRef))
  let ap := SRHeap.alloc am.1 (SpacingRectangle.clone (SRHeap.get am.1 b.paddingRef))
  (ap.1,
   { innerWidth := b.innerWidth
     innerHeight := b.innerHeight
     strokeWidth := b.strokeWidth
     marginRef := am.2
     paddingRef := ap.2 })

/-! ### The layout part of generatePage (src/svg.js) -/

/-- Box style enum: "none" | "ruled" | "grid". -/
inductive BoxStyle
  | bsNone
  | bsRuled
  | bsGrid
deriving DecidableEq, Repr

/-- Title column enum: "start" | "middle" | "end" | "none". -/
inductive TitleColumn
  | tcStart
  | tcMiddle
  | tcEnd
  | tcNone
deriving DecidableEq, Repr

/-- The GridState fields that the layout computation reads. -/
structure GridState where
  page : Box
  boxSize : Box
  boxStyle : BoxStyle
  titleColumn : TitleColumn
deriving DecidableEq, Repr

/-- The cell box after the style-specific mutation at the top of
generatePage: style "ruled" assigns box.margin.top = box.margin.bottom = 0. -/
def resolvedBox (s : GridState) : Box :=
  if s.boxStyle = BoxStyle.bsRuled then
    { s.boxSize with margin := { s.boxSize.margin with top := 0, bottom := 0 } }
  else
    s.boxSize

/-- boundaryRowHeight = box.outerHeight + box.margin.totalVertical. -/
def boundaryRowHeight (box : Box) : ℚ :=
  box.outerHeight + box.margin.totalVertical

/-- interiorRowHeight = box.outerHeight - box.strokeWidth +
box.margin.mergedVertical. -/
def interiorRowHeight (box : Box) : ℚ :=
  box.outerHeight - box.strokeWidth + box.margin.mergedVertical

/-- nBoundaryRows: 1 if the boundary row fits in page.innerHeight, else 0. -/
def nBoundaryRows (page box : Box) : ℤ :=
  if boundaryRowHeight box ≤ page.innerHeight then 1 else 0

/-- nInteriorRows: Math.max(0, Math.floor((page.innerHeight -
boundaryRowHeight) / interiorRowHeight)) in the fitting branch, else 0. -/
def nInteriorRows (page box : Box) : ℤ :=
  if boundaryRowHeight box ≤ page.innerHeight then
    max 0 ⌊(page.innerHeight - boundaryRowHeight box) / interiorRowHeight box⌋
  else 0

/-- nRows = nInteriorRows + nBoundaryRows. -/
def nRows (page box : Box) : ℤ :=
  nInteriorRows page box + nBoundaryRows page box

/-- columnsOuterHeight = boundaryRowHeight * nBoundaryRows +
interiorRowHeight * nInteriorRows. -/
def columnsOuterHeight (page box : Box) : ℚ :=
  boundaryRowHeight box * (nBoundaryRows page box : ℚ)
    + interiorRowHeight box * (nInteriorRows page box : ℚ)

/-- The title Box: new Box(undefined, undefined, SpacingRectangle(0),
SpacingRectangle(0), box.strokeWidth), then title.outerWidth =
box.outerWidth and title.outerHeight = columnsOuterHeight.  The undefined
inner sizes are modelled as 0; both are overwritten by the setters before
any read. -/
def titleBox (page box : Box) : Box :=
  let t : Box :=
    { innerWidth := 0
      innerHeight := 0
      margin := mkSpacingRectangle 0 none none none
      padding := mkSpacingRectangle 0 none none none
      strokeWidth := box.strokeWidth }
  Box.setOuterHeight (Box.setOuterWidth t box.outerWidth) (columnsOuterHeight page box)

/-- titleColumnWidth = title.outerWidth. -/
def titleColumnWidth (page box : Box) : ℚ :=
  (titleBox page box).outerWidth

/-- boundaryColumnWidth = box.outerWidth + box.margin.totalHorizontal. -/
def boundaryColumnWidth (box : Box) : ℚ :=
  box.outerWidth + box.margin.totalHorizontal

/-- interiorColumnWidth = box.outerWidth - box.strokeWidth +
box.margin.mergedHorizontal. -/
def interiorColumnWidth (box : Box) : ℚ :=
  box.outerWidth - box.strokeWidth + box.margin.mergedHorizontal

/-- The three column counters set by the switch on titleColumn. -/
structure ColumnCounts where
  nInteriorColumns : ℤ
  nBoundaryColumns : ℤ
  nTitleColumns : ℤ
deriving DecidableEq, Repr

/-- The shared body of the "start" and "end" cases of the switch. -/
def startEndCounts (page box : Box) : ColumnCounts :=
  if titleColumnWidth page box ≤ page.innerWidth then
    let remaining := page.innerWidth - titleColumnWidth page box
    if boundaryColumnWidth box ≤ remaining then
      { nInteriorColumns := ⌊(remaining - boundaryColumnWidth box) / interiorColumnWidth box⌋
        nBoundaryColumns := 1
        nTitleColumns := 1 }
    else
      { nInteriorColumns := 0, nBoundaryColumns := 0, nTitleColumns := 1 }
  else
    { nInteriorColumns := 0, nBoundaryColumns := 0, nTitleColumns := 0 }

/-- The switch on titleColumn in generatePage.  JS n % 2 truncates toward
zero, hence Int.tmod. -/
def columnCounts (page box : Box) (tc : TitleColumn) : ColumnCounts :=
  match tc with
  | TitleColumn.tcMiddle =>
    let requiredWidth := titleColumnWidth page box + 2 * boundaryColumnWidth box
    if requiredWidth ≤ page.innerWidth then
      let n := ⌊(page.innerWidth - requiredWidth) / interiorColumnWidth box⌋
      { nInteriorColumns := n - Int.tmod n 2
        nBoundaryColumns := 2
        nTitleColumns := 1 }
    else
      { nInteriorColumns := 0, nBoundaryColumns := 0, nTitleColumns := 0 }
  | TitleColumn.tcStart => startEndCounts page box
  | TitleColumn.tcEnd => startEndCounts page box
  | TitleColumn.tcNone =>
    if boundaryColumnWidth box ≤ page.innerWidth then
      { nInteriorColumns := ⌊(page.innerWidth - boundaryColumnWidth box) / interiorColumnWidth box⌋
        nBoundaryColumns := 1
        nTitleColumns := 0 }
    else
      { nInteriorColumns := 0, nBoundaryColumns := 0, nTitleColumns := 0 }

/-- nColumns = nInteriorColumns + nBoundaryColumns + nTitleColumns. -/
def nColumns (page box : Box) (tc : TitleColumn) : ℤ :=
  (columnCounts page box tc).nInteriorColumns
    + (columnCounts page box tc).nBoundaryColumns
    + (columnCounts page box tc).nTitleColumns

/-- columnsOuterWidth = interiorColumnWidth * nInteriorColumns +
boundaryColumnWidth * nBoundaryColumns + nTitleColumns * titleColumnWidth. -/
def columnsOuterWidth (page box : Box) (tc : TitleColumn) : ℚ :=
  interiorColumnWidth box * ((columnCounts page box tc).nInteriorColumns : ℚ)
    + boundaryColumnWidth box * ((columnCounts page box tc).nBoundaryColumns : ℚ)
    + ((columnCounts page box tc).nTitleColumns : ℚ) * titleColumnWidth page box

/-- titleIdx: undefined unless a title column was placed; for "middle" it is
Math.floor(nColumns / 2) (floor division, Int.fdiv), 0 for "start", and
nColumns - 1 for "end". -/
def titleIdx (page box : Box) (tc : TitleColumn) : Option ℤ :=
  if 0 < (columnCounts page box tc).nTitleColumns then
    match tc with
    | TitleColumn.tcMiddle => some (Int.fdiv (nColumns page box tc) 2)
    | TitleColumn.tcStart => some 0
    | TitleColumn.tcEnd => some (nColumns page box tc - 1)
    | TitleColumn.tcNone => none
  else none

/-- paddingHorizontal as the code computes it: the constant 0 (the
centering expression (page.innerWidth - columnsOuterWidth) / 2 is
commented out). -/
def paddingHorizontal (_page _box : Box) (_tc : TitleColumn) : ℚ := 0

/-- paddingVertical as the code computes it: the constant 0 (the centering
expression (page.innerHeight - columnsOuterHeight) / 2 is commented out). -/
def paddingVertical (_page _box : Box) : ℚ := 0

/-- The layout-relevant output of generatePage. -/
structure PageLayout where
  box : Box
  counts : ColumnCounts
  numRows : ℤ
  numColumns : ℤ
  outerW : ℚ
  outerH : ℚ
  titleIndex : Option ℤ
  boardOffset : ℚ × ℚ
deriving DecidableEq, Repr

/-- The layout computation of generatePage (src/svg.js): mutate the cell
box per style, count rows and columns, resolve the title index, and place
the hanzi board at page.innerOrigin shifted by the (zero) centering
paddings. -/
def generatePage (s : GridState) : PageLayout :=
  let box := resolvedBox s
  { box := box
    counts := columnCounts s.page box s.titleColumn
    numRows := nRows s.page box
    numColumns := nColumns s.page box s.titleColumn
    outerW := columnsOuterWidth s.page box s.titleColumn
    outerH := columnsOuterHeight s.page box
    titleIndex := titleIdx s.page box s.titleColumn
    boardOffset :=
      ((s.page.innerOrigin).1 + paddingHorizontal s.page box s.titleColumn,
       (s.page.innerOrigin).2 + paddingVertical s.page box) }

/-! ### SVGHanziBox (src/svg.js) -/

/-- The state of an SVGHanziBox that the sides/isEnclosed invariant is
about: the inherited sides field ([top, right, bottom, left]) and the
stored isEnclosedAttr. -/
structure SVGHanziBox where
  box : Box
  addCross : Bool
  addDiagonal : Bool
  addThirds : Bool
  addBox : Bool
  sides : List Bool
  isEnclosedAttr : Bool
deriving DecidableEq, Repr

/-- The SVGHanziBox constructor: passes !isEnclosed ? [false, true, false,
true] : [true, true, true, true] as the sides of the underlying SVGBox and
stores isEnclosed in isEnclosedAttr. -/
def mkSVGHanziBox (geom : Box) (isEnclosed addCross addDiagonal addThirds addBox : Bool) :
    SVGHanziBox :=
  { box := geom
    addCross := addCross
    addDiagonal := addDiagonal
    addThirds := addThirds
    addBox := addBox
    sides := if isEnclosed then [true, true, true, true] else [false, true, false, true]
    isEnclosedAttr := isEnclosed }

/-- The isEnclosed setter: rewrites sides from the new value and stores the
value in isEnclosedAttr. -/
def SVGHanziBox.setIsEnclosed (h : SVGHanziBox) (value : Bool) : SVGHanziBox :=
  { h with
    sides := if value then [true, true, true, true] else [false, true, false, true]
    isEnclosedAttr := value }

/-- The claimed invariant: sides is [true,true,true,true] when enclosed and
[false,true,false,true] otherwise. -/
def SVGHanziBox.sidesInvariant (h : SVGHanziBox) : Prop :=
  h.sides = if h.isEnclosedAttr then [true, true, true, true] else [false, true, false, true]

/-! ### Concrete scenario inputs -/

/-- The cell box of the spec scenario: outerWidth 10mm (innerWidth 9, no
padding, strokeWidth 0.5), margins 2mm on every side. -/
def scenBox : Box :=
  { innerWidth := 9
    innerHeight := 9
    margin := mkSpacingRectangle 2 none none none
    padding := mkSpacingRectangle 0 none none none
    strokeWidth := 1/2 }

/-- The page of the spec scenario: printable area 86mm x 100mm, page
padding 10mm, no page stroke. -/
def scenPage : Box :=
  { innerWidth := 86
    innerHeight := 100
    margin := mkSpacingRectangle 0 none none none
    padding := mkSpacingRectangle 10 none none none
    strokeWidth := 0 }

/-- A narrow page (printable width 30mm) on which titleColumn "middle"
cannot fit but "none" still places columns. -/
def narrowPage : Box :=
  { innerWidth := 30
    innerHeight := 100
    margin := mkSpacingRectangle 0 none none none
    padding := mkSpacingRectangle 10 none none none
    strokeWidth := 0 }

/-- A very narrow page (printable width 12mm): below one boundary column
(14mm) but at least the title column width (10mm). -/
def tinyPage : Box :=
  { innerWidth := 12
    innerHeight := 100
    margin := mkSpacingRectangle 0 none none none
    padding := mkSpacingRectangle 10 none none none
    strokeWidth := 0 }

/-- The scenario grid state with titleColumn "none" and style "grid". -/
def scenState : GridState :=
  { page := scenPage
    boxSize := scenBox
    boxStyle := BoxStyle.bsGrid
    titleColumn := TitleColumn.tcNone }

/-- The scenario grid state with style "ruled" (cell margins nonzero on
input, so the forced zeroing is observable). -/
def scenStateRuled : GridState :=
  { page := scenPage
    boxSize := scenBox
    boxStyle := BoxStyle.bsRuled
    titleColumn := TitleColumn.tcNone }

/-- A concrete two-object heap for the clone witness. -/
def scenHeap : SRHeap :=
  { cells := [{ top := 1, right := 2, bottom := 3, left := 4 },
              { top := 5, right := 6, bottom := 7, left := 8 }] }

/-- A concrete BoxRef whose margin and padding live in scenHeap. -/
def scenBoxRef : BoxRef :=
  { innerWidth := 9, innerHeight := 9, strokeWidth := 1/2, marginRef := 0, paddingRef := 1 }

/-! ## Helper lemmas -/

/-- Cloning a SpacingRectangle yields an equal value (the copy is
field-for-field identical). -/
theorem SpacingRectangle.clone_eq (sr : SpacingRectangle) : sr.clone = sr := by
  cases sr
  rfl

/-- Reading an index below the old length after an allocation gives the old
value. -/
theorem SRHeap.get_alloc_of_lt (h : SRHeap) (sr : SpacingRectangle) {i : Nat}
    (hi : i < h.cells.length) : (h.alloc sr).1.get i = h.get i := by
  simp only [SRHeap.alloc, SRHeap.get]
  exact List.getD_append _ _ _ _ hi

/-- Reading the reference returned by an allocation gives the allocated
value. -/
theorem SRHeap.get_alloc_self (h : SRHeap) (sr : SpacingRectangle) :
    (h.alloc sr).1.get (h.alloc sr).2 = sr := by
  simp only [SRHeap.alloc, SRHeap.get]
  rw [List.getD_append_right _ _ _ _ (Nat.le_refl _)]
  simp

/-- Mutating one index leaves reads at a different index unchanged. -/
theorem SRHeap.get_set_ne (h : SRHeap) {i j : Nat} (sr : SpacingRectangle)
    (hij : i ≠ j) : (h.set i sr).get j = h.get j := by
  simp only [SRHeap.set, SRHeap.get, List.getD_eq_getElem?_getD]
  rw [List.getElem?_set_ne hij]

/-! ## Claim theorems -/

/-- C7: the SpacingRectangle constructor follows CSS shorthand semantics:
one argument fills all four sides; two set top = bottom to the first and
left = right to the second; three set top to the first, left = right to the
second, bottom to the third; four set top, right, bottom, left in order. -/
theorem spacing_rectangle_css_shorthand (v a b c d : ℚ) :
    mkSpacingRectangle v none none none
      = { top := v, right := v, bottom := v, left := v }
    ∧ mkSpacingRectangle a (some b) none none
      = { top := a, right := b, bottom := a, left := b }
    ∧ mkSpacingRectangle a (some b) (some c) none
      = { top := a, right := b, bottom := c, left := b }
    ∧ mkSpacingRectangle a (some b) (some c) (some d)
      = { top := a, right := b, bottom := c, left := d } :=
  ⟨rfl, rfl, rfl, rfl⟩

/-- C6: for any Box with non-negative padding and strokeWidth, assigning
outerWidth = W and reading it back returns W (exactly over ℚ, hence within
the claimed 1e-9 tolerance), with padding and strokeWidth unchanged by the
setter; symmetrically for outerHeight. -/
theorem outer_size_roundtrip (b : Box) (w ht : ℚ)
    (hpl : 0 ≤ b.padding.left) (hpr : 0 ≤ b.padding.right)
    (hpt : 0 ≤ b.padding.top) (hpb : 0 ≤ b.padding.bottom)
    (hs : 0 ≤ b.strokeWidth) :
    (b.setOuterWidth w).outerWidth = w
    ∧ |(b.setOuterWidth w).outerWidth - w| ≤ 1 / 1000000000
    ∧ (b.setOuterWidth w).padding = b.padding
    ∧ (b.setOuterWidth w).strokeWidth = b.strokeWidth
    ∧ (b.setOuterHeight ht).outerHeight = ht
    ∧ |(b.setOuterHeight ht).outerHeight - ht| ≤ 1 / 1000000000
    ∧ (b.setOuterHeight ht).padding = b.padding
    ∧ (b.setOuterHeight ht).strokeWidth = b.strokeWidth := by
  have h1 : (b.setOuterWidth w).outerWidth = w := by
    simp only [Box.setOuterWidth, Box.outerWidth]
    ring
  have h2 : (b.setOuterHeight ht).outerHeight = ht := by
    simp only [Box.setOuterHeight, Box.outerHeight]
    ring
  refine ⟨h1, ?_, rfl, rfl, h2, ?_, rfl, rfl⟩
  · rw [h1, sub_self, abs_zero]
    norm_num
  · rw [h2, sub_self, abs_zero]
    norm_num

/-- C6 witness: the round-trip at the concrete cell box (zero padding,
stroke 1/2) with outer width 25 and outer height 30. -/
theorem outer_size_roundtrip_witness :
    (scenBox.setOuterWidth 25).outerWidth = 25
    ∧ (scenBox.setOuterHeight 30).outerHeight = 30 := by
  have h := outer_size_roundtrip scenBox 25 30
    (by norm_num [scenBox, mkSpacingRectangle])
    (by norm_num [scenBox, mkSpacingRectangle])
    (by norm_num [scenBox, mkSpacingRectangle])
    (by norm_num [scenBox, mkSpacingRectangle])
    (by norm_num [scenBox, mkSpacingRectangle])
  exact ⟨h.1, h.2.2.2.2.1⟩

/-- C10: every SVGHanziBox satisfies the sides/isEnclosed invariant — sides
is [true, true, true, true] when isEnclosed and [false, true, false, true]
otherwise — as established by the constructor and re-established by every
assignment through the isEnclosed setter. -/
theorem hanzi_box_sides_invariant :
    (∀ (geom : Box) (e c dg t bx : Bool),
       SVGHanziBox.sidesInvariant (mkSVGHanziBox geom e c dg t bx))
    ∧ (∀ (hb : SVGHanziBox) (v : Bool),
       SVGHanziBox.sidesInvariant (hb.setIsEnclosed v)) :=
  ⟨fun _ _ _ _ _ _ => rfl, fun _ _ => rfl⟩

/-- C8: with boxStyle = "ruled", after generatePage runs the cell box has
margin.top = margin.bottom = 0 regardless of the input margins. -/
theorem ruled_zeroes_vertical_margins (s : GridState)
    (hstyle : s.boxStyle = BoxStyle.bsRuled) :
    (generatePage s).box.margin.top = 0 ∧ (generatePage s).box.margin.bottom = 0 := by
  simp [generatePage, resolvedBox, hstyle]

/-- C8 witness: the ruled scenario state (whose input margins are 2mm) has
both vertical cell margins forced to 0. -/
theorem ruled_zeroes_vertical_margins_witness :
    (generatePage scenStateRuled).box.margin.top = 0
    ∧ (generatePage scenStateRuled).box.margin.bottom = 0 :=
  ruled_zeroes_vertical_margins scenStateRuled rfl

/-- C1: the code does NOT center the grid block — paddingHorizontal and
paddingVertical are the constant 0 (the centering expressions are commented
out), so on the scenario configuration the board sits at the printable-area
origin while the claimed offsets (page.innerWidth - columnsOuterWidth) / 2
and (page.innerHeight - columnsOuterHeight) / 2 are 3/2 and 11/4. -/
theorem board_offset_not_centered :
    ((generatePage scenState).boardOffset).1 - (scenPage.innerOrigin).1 = 0
    ∧ ((generatePage scenState).boardOffset).2 - (scenPage.innerOrigin).2 = 0
    ∧ (scenPage.innerWidth - (generatePage scenState).outerW) / 2 = 3 / 2
    ∧ (scenPage.innerHeight - (generatePage scenState).outerH) / 2 = 11 / 4
    ∧ ¬ (((generatePage scenState).boardOffset).1 - (scenPage.innerOrigin).1
          = (scenPage.innerWidth - (generatePage scenState).outerW) / 2)
    ∧ ¬ (((generatePage scenState).boardOffset).2 - (scenPage.innerOrigin).2
          = (scenPage.innerHeight - (generatePage scenState).outerH) / 2) := by
  have hres : resolvedBox scenState = scenBox := rfl
  have hpage : scenState.page = scenPage := rfl
  have htc : scenState.titleColumn = TitleColumn.tcNone := rfl
  norm_num [generatePage, hres, hpage, htc, paddingHorizontal, paddingVertical,
    columnsOuterWidth, columnsOuterHeight, columnCounts, nBoundaryRows, nInteriorRows,
    boundaryRowHeight, interiorRowHeight, boundaryColumnWidth, interiorColumnWidth,
    titleColumnWidth, titleBox, Box.setOuterWidth, Box.setOuterHeight, Box.innerOrigin,
    Box.outerWidth, Box.outerHeight, SpacingRectangle.totalHorizontal,
    SpacingRectangle.totalVertical, SpacingRectangle.mergedHorizontal,
    SpacingRectangle.mergedVertical, mkSpacingRectangle, scenPage, scenBox]

/-- C3: on each axis the repetition count is floor((usable - boundary) /
interior) + 1 when the boundary element fits and 0 otherwise, with
boundary = outer size + both margins and interior = outer size - one
stroke + merged margin; in the concrete scenario (cell outerWidth 10,
left/right margins 2, strokeWidth 1/2, page innerWidth 86, title "none")
the boundary column is 14, the interior column 23/2 and the column count 7. -/
theorem repetition_count_formula (page box : Box)
    (hr : 0 < interiorRowHeight box) (hc : 0 < interiorColumnWidth box) :
    (nRows page box =
       if boundaryRowHeight box ≤ page.innerHeight then
         ⌊(page.innerHeight - boundaryRowHeight box) / interiorRowHeight box⌋ + 1
       else 0)
    ∧ (nColumns page box TitleColumn.tcNone =
       if boundaryColumnWidth box ≤ page.innerWidth then
         ⌊(page.innerWidth - boundaryColumnWidth box) / interiorColumnWidth box⌋ + 1
       else 0)
    ∧ boundaryColumnWidth scenBox = 14
    ∧ interiorColumnWidth scenBox = 23 / 2
    ∧ nColumns scenPage scenBox TitleColumn.tcNone = 7 := by
  refine ⟨?_, ?_, ?_, ?_, ?_⟩
  · by_cases hfit : boundaryRowHeight box ≤ page.innerHeight
    · have hnum : 0 ≤ (page.innerHeight - boundaryRowHeight box) / interiorRowHeight box :=
        div_nonneg (sub_nonneg.mpr hfit) hr.le
      simp [nRows, nInteriorRows, nBoundaryRows, hfit,
        max_eq_right (Int.floor_nonneg.mpr hnum)]
    · simp [nRows, nInteriorRows, nBoundaryRows, hfit]
  · by_cases hfit : boundaryColumnWidth box ≤ page.innerWidth
    · simp [nColumns, columnCounts, hfit]
    · simp [nColumns, columnCounts, hfit]
  · norm_num [boundaryColumnWidth, scenBox, Box.outerWidth,
      SpacingRectangle.totalHorizontal, mkSpacingRectangle]
  · norm_num [interiorColumnWidth, scenBox, Box.outerWidth,
      SpacingRectangle.totalHorizontal, SpacingRectangle.mergedHorizontal,
      mkSpacingRectangle]
  · norm_num [nColumns, columnCounts, boundaryColumnWidth, interiorColumnWidth,
      scenBox, scenPage, Box.outerWidth, SpacingRectangle.totalHorizontal,
      SpacingRectangle.mergedHorizontal, mkSpacingRectangle]

/-- C3 witness: the count formula applied at the scenario page and cell box
(both interior sizes are 23/2 > 0), giving the column count 7. -/
theorem repetition_count_formula_witness :
    nColumns scenPage scenBox TitleColumn.tcNone = 7 :=
  (repetition_count_formula scenPage scenBox
    (by norm_num [interiorRowHeight, scenBox, Box.outerHeight,
      SpacingRectangle.totalVertical, SpacingRectangle.mergedVertical, mkSpacingRectangle])
    (by norm_num [interiorColumnWidth, scenBox, Box.outerWidth,
      SpacingRectangle.totalHorizontal, SpacingRectangle.mergedHorizontal,
      mkSpacingRectangle])).2.2.2.2

/-- C4: with titleColumn = "middle", whenever the usable width is at least
the title width plus two boundary column widths a title column is placed,
the interior count is the raw floor rounded down to the nearest even
number, the total column count is odd, the title index is floor(nColumns/2)
and it has equally many columns on each side; when the width is
insufficient no title column is placed. -/
theorem middle_title_layout (page box : Box) (hpos : 0 < interiorColumnWidth box) :
    (titleColumnWidth page box + 2 * boundaryColumnWidth box ≤ page.innerWidth →
      Even ((columnCounts page box TitleColumn.tcMiddle).nInteriorColumns)
      ∧ (columnCounts page box TitleColumn.tcMiddle).nInteriorColumns
          ≤ ⌊(page.innerWidth - (titleColumnWidth page box + 2 * boundaryColumnWidth box))
              / interiorColumnWidth box⌋
      ∧ ⌊(page.innerWidth - (titleColumnWidth page box + 2 * boundaryColumnWidth box))
              / interiorColumnWidth box⌋
          ≤ (columnCounts page box TitleColumn.tcMiddle).nInteriorColumns + 1
      ∧ Odd (nColumns page box TitleColumn.tcMiddle)
      ∧ (columnCounts page box TitleColumn.tcMiddle).nTitleColumns = 1
      ∧ titleIdx page box TitleColumn.tcMiddle
          = some (Int.fdiv (nColumns page box TitleColumn.tcMiddle) 2)
      ∧ nColumns page box TitleColumn.tcMiddle - 1
          - Int.fdiv (nColumns page box TitleColumn.tcMiddle) 2
          = Int.fdiv (nColumns page box TitleColumn.tcMiddle) 2)
    ∧ (page.innerWidth < titleColumnWidth page box + 2 * boundaryColumnWidth box →
      (columnCounts page box TitleColumn.tcMiddle).nTitleColumns = 0
      ∧ nColumns page box TitleColumn.tcMiddle = 0) := by
  constructor
  · intro hfit
    have hcc : columnCounts page box TitleColumn.tcMiddle
        = { nInteriorColumns :=
              ⌊(page.innerWidth - (titleColumnWidth page box + 2 * boundaryColumnWidth box))
                / interiorColumnWidth box⌋
              - Int.tmod
                  ⌊(page.innerWidth - (titleColumnWidth page box + 2 * boundaryColumnWidth box))
                    / interiorColumnWidth box⌋ 2
            nBoundaryColumns := 2
            nTitleColumns := 1 } := by
      simp [columnCounts, hfit]
    have hn0 : 0 ≤ ⌊(page.innerWidth
        - (titleColumnWidth page box + 2 * boundaryColumnWidth box))
        / interiorColumnWidth box⌋ :=
      Int.floor_nonneg.mpr (div_nonneg (sub_nonneg.mpr hfit) hpos.le)
    have htm : Int.tmod
        ⌊(page.innerWidth - (titleColumnWidth page box + 2 * boundaryColumnWidth box))
          / interiorColumnWidth box⌋ 2
        = ⌊(page.innerWidth - (titleColumnWidth page box + 2 * boundaryColumnWidth box))
          / interiorColumnWidth box⌋ % 2 :=
      Int.tmod_eq_emod hn0 (by norm_num)
    have hnc : nColumns page box TitleColumn.tcMiddle
        = (⌊(page.innerWidth - (titleColumnWidth page box + 2 * boundaryColumnWidth box))
            / interiorColumnWidth box⌋
          - ⌊(page.innerWidth - (titleColumnWidth page box + 2 * boundaryColumnWidth box))
            / interiorColumnWidth box⌋ % 2) + 2 + 1 := by
      rw [nColumns, hcc, htm]
    refine ⟨?_, ?_, ?_, ?_, ?_, ?_, ?_⟩
    · rw [hcc]
      simp only
      rw [htm]
      exact Int.even_iff.mpr (by omega)
    · rw [hcc]
      simp only
      rw [htm]
      omega
    · rw [hcc]
      simp only
      rw [htm]
      omega
    · rw [hnc]
      exact Int.odd_iff.mpr (by omega)
    · rw [hcc]
    · simp [titleIdx, hcc]
    · rw [Int.fdiv_eq_ediv _ (by norm_num : (0:ℤ) ≤ 2), hnc]
      omega
  · intro hlt
    have hcc : columnCounts page box TitleColumn.tcMiddle
        = { nInteriorColumns := 0, nBoundaryColumns := 0, nTitleColumns := 0 } := by
      simp [columnCounts, not_le.mpr hlt]
    exact ⟨by rw [hcc], by simp [nColumns, hcc]⟩

/-- C4 witness: on the scenario page (usable width 86, required width 38)
the middle title column is placed at index 3 of 7 columns. -/
theorem middle_title_layout_witness :
    titleIdx scenPage scenBox TitleColumn.tcMiddle
      = some (Int.fdiv (nColumns scenPage scenBox TitleColumn.tcMiddle) 2) := by
  have h := middle_title_layout scenPage scenBox
    (by norm_num [interiorColumnWidth, scenBox, Box.outerWidth,
      SpacingRectangle.totalHorizontal, SpacingRectangle.mergedHorizontal,
      mkSpacingRectangle])
  exact (h.1 (by norm_num [titleColumnWidth, titleBox, boundaryColumnWidth,
    Box.setOuterWidth, Box.setOuterHeight, Box.outerWidth, scenBox, scenPage,
    SpacingRectangle.totalHorizontal, mkSpacingRectangle])).2.2.2.2.2.1

/-- C2 counterexample: on a 30mm-wide printable area (at least one boundary
column of 14mm, but below the 38mm required for a middle title) the
"middle" configuration yields 0 columns while "none" yields 2, so the
fallback is NOT none-equivalent sizing. -/
theorem middle_fallback_differs_from_none :
    narrowPage.innerWidth
      < titleColumnWidth narrowPage scenBox + 2 * boundaryColumnWidth scenBox
    ∧ boundaryColumnWidth scenBox ≤ narrowPage.innerWidth
    ∧ nColumns narrowPage scenBox TitleColumn.tcMiddle = 0
    ∧ nColumns narrowPage scenBox TitleColumn.tcNone = 2
    ∧ nColumns narrowPage scenBox TitleColumn.tcMiddle
        ≠ nColumns narrowPage scenBox TitleColumn.tcNone := by
  norm_num [nColumns, columnCounts, titleColumnWidth, titleBox, boundaryColumnWidth,
    interiorColumnWidth, Box.setOuterWidth, Box.setOuterHeight, Box.outerWidth,
    narrowPage, scenBox, SpacingRectangle.totalHorizontal,
    SpacingRectangle.mergedHorizontal, mkSpacingRectangle]

/-- C2 amended: when the usable width is below the minimum for the
requested title mode generatePage degrades without an exception, but not
to none-equivalent counts: "middle" below its threshold yields zero
columns of every kind; "start"/"end" below the title width yield zero
columns; and "start"/"end" with room for the title but not for a boundary
column still place the lone title column. -/
theorem title_fallback_behavior (page box : Box) :
    (page.innerWidth < titleColumnWidth page box + 2 * boundaryColumnWidth box →
      columnCounts page box TitleColumn.tcMiddle
        = { nInteriorColumns := 0, nBoundaryColumns := 0, nTitleColumns := 0 })
    ∧ (page.innerWidth < titleColumnWidth page box →
      columnCounts page box TitleColumn.tcStart
        = { nInteriorColumns := 0, nBoundaryColumns := 0, nTitleColumns := 0 }
      ∧ columnCounts page box TitleColumn.tcEnd
        = { nInteriorColumns := 0, nBoundaryColumns := 0, nTitleColumns := 0 })
    ∧ (titleColumnWidth page box ≤ page.innerWidth →
      page.innerWidth - titleColumnWidth page box < boundaryColumnWidth box →
      columnCounts page box TitleColumn.tcStart
        = { nInteriorColumns := 0, nBoundaryColumns := 0, nTitleColumns := 1 }
      ∧ columnCounts page box TitleColumn.tcEnd
        = { nInteriorColumns := 0, nBoundaryColumns := 0, nTitleColumns := 1 }) := by
  refine ⟨?_, ?_, ?_⟩
  · intro hlt
    simp [columnCounts, not_le.mpr hlt]
  · intro hlt
    constructor <;> simp [columnCounts, startEndCounts, not_le.mpr hlt]
  · intro hfit hlt
    constructor <;> simp [columnCounts, startEndCounts, hfit, not_le.mpr hlt]

/-- C2 witness: the fallback behavior at the 30mm page for "middle" (all
counts zero) and at the 12mm page for "start" (lone title column). -/
theorem title_fallback_behavior_witness :
    columnCounts narrowPage scenBox TitleColumn.tcMiddle
      = { nInteriorColumns := 0, nBoundaryColumns := 0, nTitleColumns := 0 }
    ∧ columnCounts tinyPage scenBox TitleColumn.tcStart
      = { nInteriorColumns := 0, nBoundaryColumns := 0, nTitleColumns := 1 } := by
  refine ⟨(title_fallback_behavior narrowPage scenBox).1 ?_,
    ((title_fallback_behavior tinyPage scenBox).2.2 ?_ ?_).1⟩
  · norm_num [titleColumnWidth, titleBox, boundaryColumnWidth, Box.setOuterWidth,
      Box.setOuterHeight, Box.outerWidth, narrowPage, scenBox,
      SpacingRectangle.totalHorizontal, mkSpacingRectangle]
  · norm_num [titleColumnWidth, titleBox, Box.setOuterWidth, Box.setOuterHeight,
      Box.outerWidth, tinyPage, scenBox, SpacingRectangle.totalHorizontal,
      mkSpacingRectangle]
  · norm_num [titleColumnWidth, titleBox, boundaryColumnWidth, Box.setOuterWidth,
      Box.setOuterHeight, Box.outerWidth, tinyPage, scenBox,
      SpacingRectangle.totalHorizontal, mkSpacingRectangle]

/-- C5 counterexample: with titleColumn = "start" on a 12mm-wide printable
area — smaller than one boundary column (14mm) but at least the title
width (10mm) — the engine still places 1 column (the title), refuting
"count 0 for every configuration whose usable length is below one boundary
element". -/
theorem start_title_placed_below_boundary_width :
    tinyPage.innerWidth < boundaryColumnWidth scenBox
    ∧ nColumns tinyPage scenBox TitleColumn.tcStart = 1
    ∧ (1 : ℤ) ≠ 0 := by
  norm_num [nColumns, columnCounts, startEndCounts, titleColumnWidth, titleBox,
    boundaryColumnWidth, interiorColumnWidth, Box.setOuterWidth, Box.setOuterHeight,
    Box.outerWidth, tinyPage, scenBox, SpacingRectangle.totalHorizontal,
    SpacingRectangle.mergedHorizontal, mkSpacingRectangle]

/-- C5 amended: insufficiency yields empty, never-negative layouts with the
title modes excepted: the vertical axis and the horizontal axis under
"none" and "middle" give count 0 below one boundary element, "start"/"end"
give count 0 below the title column width (a lone title column can appear
between title width and boundary width), and all counts are non-negative. -/
theorem empty_layout_when_too_small (page box : Box)
    (hb : 0 ≤ boundaryColumnWidth box) (ht : 0 ≤ titleColumnWidth page box)
    (hic : 0 ≤ interiorColumnWidth box) :
    (page.innerHeight < boundaryRowHeight box → nRows page box = 0)
    ∧ (page.innerWidth < boundaryColumnWidth box →
        nColumns page box TitleColumn.tcNone = 0
        ∧ nColumns page box TitleColumn.tcMiddle = 0)
    ∧ (page.innerWidth < titleColumnWidth page box →
        nColumns page box TitleColumn.tcStart = 0
        ∧ nColumns page box TitleColumn.tcEnd = 0)
    ∧ 0 ≤ nRows page box
    ∧ (∀ tc : TitleColumn, 0 ≤ nColumns page box tc) := by
  refine ⟨?_, ?_, ?_, ?_, ?_⟩
  · intro hlt
    simp [nRows, nInteriorRows, nBoundaryRows, not_le.mpr hlt]
  · intro hlt
    have hltm : page.innerWidth < titleColumnWidth page box + 2 * boundaryColumnWidth box := by
      linarith
    constructor <;> simp [nColumns, columnCounts, not_le.mpr hlt, not_le.mpr hltm]
  · intro hlt
    constructor <;> simp [nColumns, columnCounts, startEndCounts, not_le.mpr hlt]
  · have h1 : (0:ℤ) ≤ nInteriorRows page box := by
      rw [nInteriorRows]
      split
      · exact le_max_left 0 _
      · exact le_refl 0
    have h2 : (0:ℤ) ≤ nBoundaryRows page box := by
      rw [nBoundaryRows]
      split <;> norm_num
    rw [nRows]
    exact add_nonneg h1 h2
  · intro tc
    have hflr : ∀ x : ℚ, 0 ≤ x → 0 ≤ ⌊x / interiorColumnWidth box⌋ := by
      intro x hx
      exact Int.floor_nonneg.mpr (div_nonneg hx hic)
    cases tc <;> rw [nColumns, columnCounts]
    · simp only [startEndCounts]
      split
      · split
        · rename_i hfit hrem
          have := hflr _ (sub_nonneg.mpr hrem)
          simp only
          omega
        · norm_num
      · norm_num
    · split
      · rename_i hfit
        have hn0 := hflr _ (sub_nonneg.mpr hfit)
        have htm := Int.tmod_eq_emod hn0 (by norm_num : (0:ℤ) ≤ 2)
        simp only
        omega
      · norm_num
    · simp only [startEndCounts]
      split
      · split
        · rename_i hfit hrem
          have := hflr _ (sub_nonneg.mpr hrem)
          simp only
          omega
        · norm_num
      · norm_num
    · split
      · rename_i hfit
        have := hflr _ (sub_nonneg.mpr hfit)
        simp only
        omega
      · norm_num

/-- C5 witness: the amended statement at the 12mm page and scenario cell
box, below one boundary column on the horizontal axis for "none". -/
theorem empty_layout_when_too_small_witness :
    nColumns tinyPage scenBox TitleColumn.tcNone = 0 := by
  have h := empty_layout_when_too_small tinyPage scenBox
    (by norm_num [boundaryColumnWidth, scenBox, Box.outerWidth,
      SpacingRectangle.totalHorizontal, mkSpacingRectangle])
    (by norm_num [titleColumnWidth, titleBox, Box.setOuterWidth, Box.setOuterHeight,
      Box.outerWidth, scenBox, SpacingRectangle.totalHorizontal, mkSpacingRectangle])
    (by norm_num [interiorColumnWidth, scenBox, Box.outerWidth,
      SpacingRectangle.totalHorizontal, SpacingRectangle.mergedHorizontal,
      mkSpacingRectangle])
  exact (h.2.1 (by norm_num [boundaryColumnWidth, scenBox, Box.outerWidth, tinyPage,
    SpacingRectangle.totalHorizontal, mkSpacingRectangle])).1

/-- C9: Box.clone (modelled with an explicit heap for object identity)
returns a box with equal scalar fields whose margin and padding are
field-for-field equal but DISTINCT SpacingRectangle instances, so mutating
any spacing object of the clone leaves every read of the original
unchanged, and vice versa. -/
theorem box_clone_deep_copy (h : SRHeap) (b : BoxRef)
    (hm : b.marginRef < h.cells.length) (hp : b.paddingRef < h.cells.length) :
    (BoxRef.clone h b).2.innerWidth = b.innerWidth
    ∧ (BoxRef.clone h b).2.innerHeight = b.innerHeight
    ∧ (BoxRef.clone h b).2.strokeWidth = b.strokeWidth
    ∧ SRHeap.get (BoxRef.clone h b).1 (BoxRef.clone h b).2.marginRef
        = SRHeap.get h b.marginRef
    ∧ SRHeap.get (BoxRef.clone h b).1 (BoxRef.clone h b).2.paddingRef
        = SRHeap.get h b.paddingRef
    ∧ SRHeap.get (BoxRef.clone h b).1 b.marginRef = SRHeap.get h b.marginRef
    ∧ SRHeap.get (BoxRef.clone h b).1 b.paddingRef = SRHeap.get h b.paddingRef
    ∧ (BoxRef.clone h b).2.marginRef ≠ b.marginRef
    ∧ (BoxRef.clone h b).2.paddingRef ≠ b.paddingRef
    ∧ (BoxRef.clone h b).2.marginRef ≠ b.paddingRef
    ∧ (BoxRef.clone h b).2.paddingRef ≠ b.marginRef
    ∧ (BoxRef.clone h b).2.marginRef ≠ (BoxRef.clone h b).2.paddingRef
    ∧ (∀ sr : SpacingRectangle,
        SRHeap.get (SRHeap.set (BoxRef.clone h b).1 (BoxRef.clone h b).2.marginRef sr)
          b.marginRef = SRHeap.get h b.marginRef
        ∧ SRHeap.get (SRHeap.set (BoxRef.clone h b).1 (BoxRef.clone h b).2.marginRef sr)
          b.paddingRef = SRHeap.get h b.paddingRef
        ∧ SRHeap.get (SRHeap.set (BoxRef.clone h b).1 (BoxRef.clone h b).2.paddingRef sr)
          b.marginRef = SRHeap.get h b.marginRef
        ∧ SRHeap.get (SRHeap.set (BoxRef.clone h b).1 (BoxRef.clone h b).2.paddingRef sr)
          b.paddingRef = SRHeap.get h b.paddingRef
        ∧ SRHeap.get (SRHeap.set (BoxRef.clone h b).1 b.marginRef sr)
          (BoxRef.clone h b).2.marginRef = SRHeap.get h b.marginRef
        ∧ SRHeap.get (SRHeap.set (BoxRef.clone h b).1 b.paddingRef sr)
          (BoxRef.clone h b).2.paddingRef = SRHeap.get h b.paddingRef) := by
  have e2m : (BoxRef.clone h b).2.marginRef = h.cells.length := rfl
  have e2p : (BoxRef.clone h b).2.paddingRef = h.cells.length + 1 := by
    simp [BoxRef.clone, SRHeap.alloc]
  have ecells : (BoxRef.clone h b).1.cells
      = (h.cells ++ [SRHeap.get h b.marginRef]) ++ [SRHeap.get h b.paddingRef] := by
    simp only [BoxRef.clone]
    rw [SRHeap.get_alloc_of_lt h _ hp]
    rw [SpacingRectangle.clone_eq, SpacingRectangle.clone_eq]
    simp [SRHeap.alloc]
  have g1 : SRHeap.get (BoxRef.clone h b).1 b.marginRef = SRHeap.get h b.marginRef := by
    simp only [SRHeap.get, ecells]
    rw [List.getD_append _ _ _ _ (by simp; omega), List.getD_append _ _ _ _ hm]
  have g2 : SRHeap.get (BoxRef.clone h b).1 b.paddingRef = SRHeap.get h b.paddingRef := by
    simp only [SRHeap.get, ecells]
    rw [List.getD_append _ _ _ _ (by simp; omega), List.getD_append _ _ _ _ hp]
  have gm : SRHeap.get (BoxRef.clone h b).1 h.cells.length = SRHeap.get h b.marginRef := by
    simp only [SRHeap.get, ecells]
    rw [List.getD_append _ _ _ _ (by simp)]
    rw [List.getD_append_right _ _ _ _ (Nat.le_refl _)]
    simp
  have gp : SRHeap.get (BoxRef.clone h b).1 (h.cells.length + 1)
      = SRHeap.get h b.paddingRef := by
    simp only [SRHeap.get, ecells]
    rw [List.getD_append_right _ _ _ _ (by simp)]
    simp
  refine ⟨rfl, rfl, rfl, ?_, ?_, g1, g2, ?_, ?_, ?_, ?_, ?_, ?_⟩
  · rw [e2m]
    exact gm
  · rw [e2p]
    exact gp
  · omega
  · omega
  · omega
  · omega
  · rw [e2m, e2p]
    omega
  · intro sr
    refine ⟨?_, ?_, ?_, ?_, ?_, ?_⟩
    · rw [SRHeap.get_set_ne _ _ (by omega), g1]
    · rw [SRHeap.get_set_ne _ _ (by omega), g2]
    · rw [SRHeap.get_set_ne _ _ (by omega), g1]
    · rw [SRHeap.get_set_ne _ _ (by omega), g2]
    · rw [SRHeap.get_set_ne _ _ (by omega), e2m, gm]
    · rw [SRHeap.get_set_ne _ _ (by omega), e2p, gp]

/-- C9 witness: cloning the concrete two-object heap allocates distinct
references (2 and 3) holding equal values. -/
theorem box_clone_deep_copy_witness :
    (BoxRef.clone scenHeap scenBoxRef).2.marginRef ≠ scenBoxRef.marginRef
    ∧ SRHeap.get (BoxRef.clone scenHeap scenBoxRef).1
        (BoxRef.clone scenHeap scenBoxRef).2.marginRef
      = SRHeap.get scenHeap scenBoxRef.marginRef := by
  have h := box_clone_deep_copy scenHeap scenBoxRef
    (by norm_num [scenHeap, scenBoxRef]) (by norm_num [scenHeap, scenBoxRef])
  exact ⟨h.2.2.2.2.2.2.2.1, h.2.2.2.1⟩

end Genkouyoushi
